import Mathlib

/-
Verification of the Admission & Lifecycle Engine of the DIBS-Android catalog
component (the `CatalogPage` module).

The embedding below translates the relevant JavaScript into Lean:

* Times are millisecond timestamps, modelled as `Int` (the source parses
  strings into numeric ms via `parseTimeToMs` before any logic runs; all
  claims are about the post-parse numeric values, where JS truthiness of a
  time is `≠ 0`).
* The realtime store is modelled as explicit state: the per-room
  `rsvp_config` document (whose fields may be missing, hence `Option`
  fields plus a pass-through list for unknown extra fields), the room-side
  `rooms/<roomId>/rsvps/<userId>` records and the user-side
  `users/<userId>/rsvps/<roomId>` records as association lists keyed by id.
* `runTransaction` is modelled by applying the transaction callback once to
  the current value: `none` from the callback means the transaction aborted
  (`committed = false`), `some` means it committed with that value.
* The single atomic multi-key `update(ref(db), updates)` is one state
  transition that replaces both records together.
* RSVP statuses are the raw strings of the source (`RSVP_STATUS`), since
  `isActiveRsvpStatus` compares them case-insensitively via `toLowerCase`.
-/

/-- Derived room lifecycle state, the three string constants
`'upcoming' | 'current' | 'ended'` returned by `getRoomState`. -/
inductive RoomLifecycleState
  | upcoming
  | current
  | ended
deriving DecidableEq, Repr

/-- A room as assembled by the catalog subscription: its id, the `isLive`
operator override, the (already parsed) event window, and the set of user
ids present in `audience_index`. -/
structure Room where
  id : String
  isLive : Bool
  startTimeMs : Int
  endTimeMs : Int
  audienceIndex : List String
deriving DecidableEq, Repr

/-- Embedding of `getRoomState(room, nowMs)` (part_003 lines 74-83).
JS truthiness of a parsed time is `≠ 0`. -/
def getRoomState (room : Room) (nowMs : Int) : RoomLifecycleState :=
  if room.startTimeMs ≠ 0 ∧ nowMs < room.startTimeMs then .upcoming
  else if room.endTimeMs ≠ 0 ∧ nowMs ≥ room.endTimeMs then .ended
  else if room.isLive then .current
  else if room.startTimeMs ≠ 0 ∧ nowMs ≥ room.startTimeMs ∧
            (room.endTimeMs = 0 ∨ nowMs < room.endTimeMs) then .current
  else .upcoming

/-- Modelled from the spec: the Lifecycle Resolver rule list of section 3
("Derived RoomLifecycleState", rules evaluated in order, first match wins),
written from the spec text for comparison against `getRoomState`. -/
def resolveLifecycleSpec (startMs endMs : Int) (liveFlag : Bool)
    (now : Int) : RoomLifecycleState :=
  if startMs ≠ 0 ∧ now < startMs then .upcoming
  else if endMs ≠ 0 ∧ now ≥ endMs then .ended
  else if liveFlag then .current
  else if startMs ≠ 0 ∧ now ≥ startMs ∧ (endMs = 0 ∨ now < endMs) then .current
  else .upcoming

/-- The status strings of the source's `RSVP_STATUS` table. -/
def RSVP_STATUS_REGISTERED : String := "registered"

/-- Status string `RSVP_STATUS.WAITLISTED`. -/
def RSVP_STATUS_WAITLISTED : String := "waitlisted"

/-- Status string `RSVP_STATUS.CANCELLED`. -/
def RSVP_STATUS_CANCELLED : String := "cancelled"

/-- ASCII lowercase over the character list, the behaviour of JS
`String.prototype.toLowerCase` on the ASCII status strings involved. -/
def jsToLowerCase (s : String) : String :=
  String.mk (s.data.map Char.toLower)

/-- Embedding of `isActiveRsvpStatus(status)` (part_003 lines 110-113):
`String(status || '').toLowerCase()` is `registered` or `waitlisted`.
`none` models a missing status (JS `undefined`). -/
def isActiveRsvpStatus (status : Option String) : Bool :=
  let normalized := jsToLowerCase (status.getD "")
  normalized == RSVP_STATUS_REGISTERED || normalized == RSVP_STATUS_WAITLISTED

/-- C6: the lifecycle resolver returns the first matching rule in order
(UPCOMING before start, ENDED at or after a nonzero end, CURRENT on the
live flag, CURRENT mid-window, else UPCOMING); `getRoomState` agrees with
the spec's rule list on every input, the concrete examples hold, and a true
live flag never overrides an ENDED window. -/
theorem lifecycle_resolver_rules :
    (∀ (startMs endMs : Int) (liveFlag : Bool) (now : Int)
        (id : String) (ai : List String),
        getRoomState ⟨id, liveFlag, startMs, endMs, ai⟩ now =
          resolveLifecycleSpec startMs endMs liveFlag now) ∧
    getRoomState ⟨"r", false, 1000, 2000, []⟩ 500 = RoomLifecycleState.upcoming ∧
    getRoomState ⟨"r", false, 1000, 2000, []⟩ 1500 = RoomLifecycleState.current ∧
    getRoomState ⟨"r", false, 1000, 2000, []⟩ 2000 = RoomLifecycleState.ended ∧
    (∀ now : Int, getRoomState ⟨"r", true, 0, 0, []⟩ now = RoomLifecycleState.current) ∧
    (∀ (startMs endMs now : Int) (id : String) (ai : List String),
        getRoomState ⟨id, false, startMs, endMs, ai⟩ now = RoomLifecycleState.ended →
        getRoomState ⟨id, true, startMs, endMs, ai⟩ now = RoomLifecycleState.ended) := by
  refine ⟨fun s e l n id ai => rfl, by decide, by decide, by decide, ?_, ?_⟩
  · intro now
    simp [getRoomState]
  · intro s e n id ai h
    unfold getRoomState at h ⊢
    split_ifs at h ⊢; simp_all

/-- Witness for C6: the live-flag-cannot-override-ENDED conjunct applied at
a concrete ended window. -/
theorem lifecycle_resolver_rules_witness :
    getRoomState ⟨"r", false, 1000, 2000, []⟩ 2500 = RoomLifecycleState.ended ∧
    getRoomState ⟨"r", true, 1000, 2000, []⟩ 2500 = RoomLifecycleState.ended :=
  ⟨by decide, lifecycle_resolver_rules.2.2.2.2.2 1000 2000 2500 "r" [] (by decide)⟩

/-- The `rsvp_config` document as stored: every field may be missing
(JS `undefined`), and unknown extra fields are carried through untouched
by the object spread. -/
structure StoredRsvpConfig where
  rsvpOpen : Option Bool
  capacity : Option Int
  bookedCount : Option Int
  waitlistCount : Option Int
  extra : List (String × Int)
deriving DecidableEq, Repr

/-- A fully populated rsvp config, the shape produced by spreading
`DEFAULT_RSVP_CONFIG` under the stored document. -/
structure RsvpConfig where
  rsvpOpen : Bool
  capacity : Int
  bookedCount : Int
  waitlistCount : Int
  extra : List (String × Int)
deriving DecidableEq, Repr

/-- Embedding of `DEFAULT_RSVP_CONFIG` (part_003 lines 20-25). -/
def DEFAULT_RSVP_CONFIG : RsvpConfig :=
  { rsvpOpen := true
    capacity := 100
    bookedCount := 0
    waitlistCount := 0
    extra := [] }

/-- The spread `{...DEFAULT_RSVP_CONFIG, ...(current || {})}` inside the
transaction callback (part_003 lines 518-521): missing fields come from the
defaults, present fields and extra fields come from the stored document. -/
def mergeRsvpConfig (current : Option StoredRsvpConfig) : RsvpConfig :=
  match current with
  | none => DEFAULT_RSVP_CONFIG
  | some c =>
    { rsvpOpen := c.rsvpOpen.getD DEFAULT_RSVP_CONFIG.rsvpOpen
      capacity := c.capacity.getD DEFAULT_RSVP_CONFIG.capacity
      bookedCount := c.bookedCount.getD DEFAULT_RSVP_CONFIG.bookedCount
      waitlistCount := c.waitlistCount.getD DEFAULT_RSVP_CONFIG.waitlistCount
      extra := c.extra }

/-- View of a fully populated config as a stored document (the value the
transaction writes back: every field present). -/
def RsvpConfig.toStored (cfg : RsvpConfig) : StoredRsvpConfig :=
  { rsvpOpen := some cfg.rsvpOpen
    capacity := some cfg.capacity
    bookedCount := some cfg.bookedCount
    waitlistCount := some cfg.waitlistCount
    extra := cfg.extra }

/-- Embedding of the `runTransaction(rsvpConfigRef, (current) => ...)`
callback (part_003 lines 517-538): merge defaults, abort when
`cfg.rsvpOpen === false`, otherwise waitlist when the room is full
(`capacity > 0 && bookedCount >= capacity`) and register otherwise.
`none` models the aborting `return undefined`; `some` carries the written
config together with the `assignedStatus` string. -/
def rsvpTransactionBody (current : Option StoredRsvpConfig) :
    Option (RsvpConfig × String) :=
  let cfg := mergeRsvpConfig current
  if cfg.rsvpOpen = false then none
  else if cfg.capacity > 0 ∧ cfg.bookedCount ≥ cfg.capacity then
    some ({ cfg with waitlistCount := cfg.waitlistCount + 1 }, RSVP_STATUS_WAITLISTED)
  else
    some ({ cfg with bookedCount := cfg.bookedCount + 1 }, RSVP_STATUS_REGISTERED)

/-- One committed ledger transaction starting from a fully populated
stored config. -/
def registerTxStep (cfg : RsvpConfig) : Option (RsvpConfig × String) :=
  rsvpTransactionBody (some cfg.toStored)

/-- A sequence of committed register transactions: returns the final
config together with how many calls ended REGISTERED and how many ended
WAITLISTED, or `none` if any transaction in the sequence aborted. -/
def runRegisterSeq : Nat → RsvpConfig → Option (RsvpConfig × Nat × Nat)
  | 0, cfg => some (cfg, 0, 0)
  | n + 1, cfg =>
    match registerTxStep cfg with
    | none => none
    | some (next, status) =>
      match runRegisterSeq n next with
      | none => none
      | some (final, r, w) =>
        some (final,
          (if status = RSVP_STATUS_REGISTERED then r + 1 else r),
          (if status = RSVP_STATUS_WAITLISTED then w + 1 else w))

theorem mergeRsvpConfig_toStored (cfg : RsvpConfig) :
    mergeRsvpConfig (some cfg.toStored) = cfg := by
  cases cfg
  rfl

theorem registerTxStep_register (cfg : RsvpConfig)
    (hopen : cfg.rsvpOpen = true)
    (hfree : ¬(cfg.capacity > 0 ∧ cfg.bookedCount ≥ cfg.capacity)) :
    registerTxStep cfg =
      some ({ cfg with bookedCount := cfg.bookedCount + 1 }, RSVP_STATUS_REGISTERED) := by
  unfold registerTxStep rsvpTransactionBody
  rw [mergeRsvpConfig_toStored]
  simp [hopen, hfree]

theorem registerTxStep_waitlist (cfg : RsvpConfig)
    (hopen : cfg.rsvpOpen = true)
    (hfull : cfg.capacity > 0 ∧ cfg.bookedCount ≥ cfg.capacity) :
    registerTxStep cfg =
      some ({ cfg with waitlistCount := cfg.waitlistCount + 1 }, RSVP_STATUS_WAITLISTED) := by
  unfold registerTxStep rsvpTransactionBody
  rw [mergeRsvpConfig_toStored]
  simp [hopen, hfull]

theorem runRegisterSeq_append (m : Nat) :
    ∀ (n : Nat) (cfg c1 : RsvpConfig) (r1 w1 : Nat),
      runRegisterSeq m cfg = some (c1, r1, w1) →
      ∀ (c2 : RsvpConfig) (r2 w2 : Nat),
        runRegisterSeq n c1 = some (c2, r2, w2) →
        runRegisterSeq (m + n) cfg = some (c2, r1 + r2, w1 + w2) := by
  induction m with
  | zero =>
    intro n cfg c1 r1 w1 h1 c2 r2 w2 h2
    simp [runRegisterSeq] at h1
    obtain ⟨rfl, rfl, rfl⟩ := h1
    simpa using h2
  | succ k ih =>
    intro n cfg c1 r1 w1 h1 c2 r2 w2 h2
    rw [show k + 1 + n = (k + n) + 1 by omega]
    rw [runRegisterSeq] at h1 ⊢
    cases hstep : registerTxStep cfg with
    | none => rw [hstep] at h1; simp at h1
    | some next =>
      obtain ⟨nextCfg, status⟩ := next
      rw [hstep] at h1
      dsimp only at h1 ⊢
      cases hrec : runRegisterSeq k nextCfg with
      | none => rw [hrec] at h1; simp at h1
      | some res =>
        obtain ⟨cmid, rmid, wmid⟩ := res
        rw [hrec] at h1
        dsimp only at h1
        simp only [Option.some.injEq, Prod.mk.injEq] at h1
        obtain ⟨rfl, hr, hw⟩ := h1
        rw [ih n nextCfg _ rmid wmid hrec c2 r2 w2 h2]
        dsimp only
        subst hr
        subst hw
        simp only [Option.some.injEq, Prod.mk.injEq]
        refine ⟨trivial, ?_, ?_⟩ <;> split <;> omega

theorem runRegisterSeq_fill (k : Nat) :
    ∀ cfg : RsvpConfig, cfg.rsvpOpen = true → 0 < cfg.capacity →
      cfg.bookedCount + k ≤ cfg.capacity →
      runRegisterSeq k cfg =
        some ({ cfg with bookedCount := cfg.bookedCount + k }, k, 0) := by
  induction k with
  | zero =>
    intro cfg hopen hcap hle
    simp [runRegisterSeq]
  | succ j ih =>
    intro cfg hopen hcap hle
    have hlt : cfg.bookedCount < cfg.capacity := by
      have : ((j : Int) + 1) ≥ 1 := by omega
      push_cast at hle
      omega
    rw [runRegisterSeq,
      registerTxStep_register cfg hopen (by intro h; omega)]
    simp only
    have hrec := ih { cfg with bookedCount := cfg.bookedCount + 1 }
      (by simp [hopen]) (by simpa using hcap)
      (by simp only; push_cast at hle ⊢; omega)
    rw [hrec]
    simp only [Option.some.injEq, Prod.mk.injEq]
    refine ⟨?_, by simp [RSVP_STATUS_REGISTERED], by simp [RSVP_STATUS_WAITLISTED, RSVP_STATUS_REGISTERED]⟩
    have : cfg.bookedCount + 1 + (j : Int) = cfg.bookedCount + ((j : Int) + 1) := by omega
    simp only [this]
    push_cast
    rfl

theorem runRegisterSeq_waitlist (k : Nat) :
    ∀ cfg : RsvpConfig, cfg.rsvpOpen = true → 0 < cfg.capacity →
      cfg.capacity ≤ cfg.bookedCount →
      runRegisterSeq k cfg =
        some ({ cfg with waitlistCount := cfg.waitlistCount + k }, 0, k) := by
  induction k with
  | zero =>
    intro cfg hopen hcap hfull
    simp [runRegisterSeq]
  | succ j ih =>
    intro cfg hopen hcap hfull
    rw [runRegisterSeq, registerTxStep_waitlist cfg hopen ⟨hcap, hfull⟩]
    simp only
    have hrec := ih { cfg with waitlistCount := cfg.waitlistCount + 1 }
      (by simp [hopen]) (by simpa using hcap) (by simpa using hfull)
    rw [hrec]
    simp only [Option.some.injEq, Prod.mk.injEq]
    refine ⟨?_, by simp [RSVP_STATUS_REGISTERED, RSVP_STATUS_WAITLISTED], by simp [RSVP_STATUS_WAITLISTED]⟩
    have : cfg.waitlistCount + 1 + (j : Int) = cfg.waitlistCount + ((j : Int) + 1) := by omega
    simp only [this]
    push_cast
    rfl

/-- C1: one committed execution of the register transaction body preserves
`bookedCount ≤ capacity` when `capacity > 0`, waitlisting the caller
whenever `bookedCount ≥ capacity`; and a sequence of `N > C` committed
register transactions starting from `bookedCount = 0`, `waitlistCount = 0`
with capacity `C > 0` ends with exactly `C` REGISTERED outcomes, `N - C`
WAITLISTED outcomes, `bookedCount = C` and `waitlistCount = N - C`. -/
theorem register_capacity_invariant :
    (∀ (current : Option StoredRsvpConfig) (cfg2 : RsvpConfig) (s : String),
        rsvpTransactionBody current = some (cfg2, s) →
        0 < (mergeRsvpConfig current).capacity →
        (mergeRsvpConfig current).bookedCount ≤ (mergeRsvpConfig current).capacity →
        cfg2.bookedCount ≤ (mergeRsvpConfig current).capacity ∧
          ((mergeRsvpConfig current).bookedCount ≥ (mergeRsvpConfig current).capacity →
            s = RSVP_STATUS_WAITLISTED)) ∧
    (∀ (C N : Nat) (extra : List (String × Int)),
        0 < C → C < N →
        runRegisterSeq N ⟨true, (C : Int), 0, 0, extra⟩ =
          some (⟨true, (C : Int), (C : Int), ((N - C : Nat) : Int), extra⟩,
            C, N - C)) := by
  constructor
  · intro current cfg2 s h hcap hle
    unfold rsvpTransactionBody at h
    set cfg := mergeRsvpConfig current with hcfg
    by_cases hopen : cfg.rsvpOpen = false
    · simp [hopen] at h
    · rw [if_neg hopen] at h
      by_cases hfull : cfg.capacity > 0 ∧ cfg.bookedCount ≥ cfg.capacity
      · rw [if_pos hfull] at h
        simp only [Option.some.injEq, Prod.mk.injEq] at h
        obtain ⟨hcfg2, hs⟩ := h
        subst hcfg2
        subst hs
        exact ⟨by simpa using hle, fun _ => rfl⟩
      · rw [if_neg hfull] at h
        simp only [Option.some.injEq, Prod.mk.injEq] at h
        obtain ⟨hcfg2, hs⟩ := h
        subst hcfg2
        subst hs
        constructor
        · show cfg.bookedCount + 1 ≤ cfg.capacity
          push_neg at hfull
          have hlt := hfull hcap
          omega
        · intro hge
          exact absurd ⟨hcap, hge⟩ hfull
  · intro C N extra hC hCN
    have hfill := runRegisterSeq_fill C ⟨true, (C : Int), 0, 0, extra⟩
      rfl (by simpa using hC) (by simp)
    simp only [zero_add] at hfill
    have hwait := runRegisterSeq_waitlist (N - C)
      ⟨true, (C : Int), (C : Int), 0, extra⟩ rfl (by simpa using hC) (by simp)
    simp only [zero_add] at hwait
    have happ := runRegisterSeq_append C (N - C) _ _ _ _ hfill _ _ _ hwait
    rw [show C + (N - C) = N by omega] at happ
    simpa using happ

/-- Witness for C1 at capacity 1, two calls: the first registers, the
second is waitlisted, ending with bookedCount 1 and waitlistCount 1. -/
theorem register_capacity_invariant_witness :
    ((1 : Int) ≤ 1 ∧ (RSVP_STATUS_WAITLISTED = RSVP_STATUS_WAITLISTED)) ∧
    runRegisterSeq 2 ⟨true, 1, 0, 0, []⟩ = some (⟨true, 1, 1, 1, []⟩, 1, 1) := by
  constructor
  · have h := register_capacity_invariant.1
      (some ⟨some true, some 1, some 1, some 0, []⟩)
      ⟨true, 1, 1, 1, []⟩ RSVP_STATUS_WAITLISTED (by decide) (by decide) (by decide)
    exact ⟨h.1, h.2 (by decide)⟩
  · exact register_capacity_invariant.2 1 2 [] (by decide) (by decide)

/-- C2: the transaction body fills missing fields from the defaults
`{rsvpOpen: true, capacity: 100, bookedCount: 0, waitlistCount: 0}`
(extra fields pass through); when it does not abort it makes exactly one
change — waitlistCount + 1 with outcome WAITLISTED when the room is full
(`capacity > 0` and `bookedCount ≥ capacity`), otherwise bookedCount + 1
with outcome REGISTERED — and every other field is returned unchanged. -/
theorem rsvp_transaction_single_increment :
    (mergeRsvpConfig none = ⟨true, 100, 0, 0, []⟩) ∧
    (∀ c : StoredRsvpConfig,
        mergeRsvpConfig (some c) =
          ⟨c.rsvpOpen.getD true, c.capacity.getD 100,
            c.bookedCount.getD 0, c.waitlistCount.getD 0, c.extra⟩) ∧
    (∀ (current : Option StoredRsvpConfig) (cfg2 : RsvpConfig) (s : String),
        rsvpTransactionBody current = some (cfg2, s) →
        (cfg2.rsvpOpen = (mergeRsvpConfig current).rsvpOpen ∧
          cfg2.capacity = (mergeRsvpConfig current).capacity ∧
          cfg2.extra = (mergeRsvpConfig current).extra) ∧
        (((mergeRsvpConfig current).capacity > 0 ∧
            (mergeRsvpConfig current).bookedCount ≥ (mergeRsvpConfig current).capacity) →
          s = RSVP_STATUS_WAITLISTED ∧
            cfg2.waitlistCount = (mergeRsvpConfig current).waitlistCount + 1 ∧
            cfg2.bookedCount = (mergeRsvpConfig current).bookedCount) ∧
        (¬((mergeRsvpConfig current).capacity > 0 ∧
            (mergeRsvpConfig current).bookedCount ≥ (mergeRsvpConfig current).capacity) →
          s = RSVP_STATUS_REGISTERED ∧
            cfg2.bookedCount = (mergeRsvpConfig current).bookedCount + 1 ∧
            cfg2.waitlistCount = (mergeRsvpConfig current).waitlistCount)) := by
  refine ⟨rfl, fun c => rfl, ?_⟩
  intro current cfg2 s h
  unfold rsvpTransactionBody at h
  set cfg := mergeRsvpConfig current with hcfg
  by_cases hopen : cfg.rsvpOpen = false
  · simp [hopen] at h
  · rw [if_neg hopen] at h
    by_cases hfull : cfg.capacity > 0 ∧ cfg.bookedCount ≥ cfg.capacity
    · rw [if_pos hfull] at h
      simp only [Option.some.injEq, Prod.mk.injEq] at h
      obtain ⟨hcfg2, hs⟩ := h
      subst hcfg2
      subst hs
      exact ⟨⟨rfl, rfl, rfl⟩, fun _ => ⟨rfl, rfl, rfl⟩, fun hn => absurd hfull hn⟩
    · rw [if_neg hfull] at h
      simp only [Option.some.injEq, Prod.mk.injEq] at h
      obtain ⟨hcfg2, hs⟩ := h
      subst hcfg2
      subst hs
      exact ⟨⟨rfl, rfl, rfl⟩, fun hf => absurd hf hfull, fun _ => ⟨rfl, rfl, rfl⟩⟩

/-- Witness for C2: the body applied to a config with a missing capacity
(defaulted to 100) and bookedCount 3 registers, incrementing only
bookedCount. -/
theorem rsvp_transaction_single_increment_witness :
    RSVP_STATUS_REGISTERED = RSVP_STATUS_REGISTERED ∧
    (⟨true, 100, 4, 5, [("legacyField", 7)]⟩ : RsvpConfig).bookedCount =
      (mergeRsvpConfig (some ⟨none, none, some 3, some 5, [("legacyField", 7)]⟩)).bookedCount + 1 ∧
    (⟨true, 100, 4, 5, [("legacyField", 7)]⟩ : RsvpConfig).waitlistCount =
      (mergeRsvpConfig (some ⟨none, none, some 3, some 5, [("legacyField", 7)]⟩)).waitlistCount := by
  have h := rsvp_transaction_single_increment.2.2
    (some ⟨none, none, some 3, some 5, [("legacyField", 7)]⟩)
    ⟨true, 100, 4, 5, [("legacyField", 7)]⟩ RSVP_STATUS_REGISTERED (by decide)
  exact h.2.2 (by decide)

/-- Association-list lookup, modelling a keyed child read
(`rooms/<roomId>/rsvps/<userId>`, `users/<userId>/rsvps/<roomId>`). -/
def lookupA {α : Type} (k : String) : List (String × α) → Option α
  | [] => none
  | (k2, v) :: rest => if k2 = k then some v else lookupA k rest

/-- Association-list write, modelling a keyed child set: replaces the
entry when the key is present, appends it otherwise. -/
def insertA {α : Type} (k : String) (v : α) : List (String × α) → List (String × α)
  | [] => [(k, v)]
  | (k2, v2) :: rest => if k2 = k then (k, v) :: rest else (k2, v2) :: insertA k v rest

theorem lookupA_insertA_self {α : Type} (k : String) (v : α) :
    ∀ l : List (String × α), lookupA k (insertA k v l) = some v := by
  intro l
  induction l with
  | nil => simp [insertA, lookupA]
  | cons head tail ih =>
    obtain ⟨k2, v2⟩ := head
    by_cases hk : k2 = k
    · simp [insertA, lookupA, hk]
    · simp [insertA, lookupA, hk, ih]

/-- The room-side record `rooms/<roomId>/rsvps/<userId>`
(`roomRsvpPayload`, part_003 lines 549-555). -/
structure RoomRsvpRecord where
  status : String
  createdAt : Int
  phone : String
  displayName : String
  userId : String
deriving DecidableEq, Repr

/-- The user-side record `users/<userId>/rsvps/<roomId>`
(`userRsvpPayload`, part_003 lines 557-563). -/
structure UserRsvpRecord where
  status : String
  roomId : String
  startTimeMs : Int
  endTimeMs : Int
  updatedAt : Int
deriving DecidableEq, Repr

/-- The caller's profile fields used by the register flow. -/
structure Profile where
  phone : String
  displayName : String
deriving DecidableEq, Repr

/-- The store state touched by one register call for one room and one
user: the room's `rsvp_config` document, the room-side rsvp records keyed
by user id, and the caller's user-side rsvp records keyed by room id. -/
structure RegisterState where
  rsvpConfig : Option StoredRsvpConfig
  roomRsvps : List (String × RoomRsvpRecord)
  userRsvps : List (String × UserRsvpRecord)
deriving DecidableEq, Repr

/-- Observable outcome of one register call: the guard outcomes (no
session, room not UPCOMING), the idempotent short-circuit carrying the
existing status, the aborted transaction (REFUSED), or a committed
transaction carrying the assigned status. -/
inductive RegisterOutcome
  | noSession
  | notUpcoming
  | already (status : String)
  | refused
  | committed (status : String)
deriving DecidableEq, Repr

/-- The commit phase of `handleRegisterForSelectedRoom` (part_003 lines
514-575): run the ledger transaction; on abort report REFUSED and change
nothing; on commit write the room-side and user-side records in the single
atomic multi-key `update`. -/
def registerCommitPhase (room : Room) (rsvpOwnerId : String) (profile : Profile)
    (now : Int) (st : RegisterState) : RegisterOutcome × RegisterState :=
  match rsvpTransactionBody st.rsvpConfig with
  | none => (.refused, st)
  | some (cfg, assignedStatus) =>
    let roomRsvpPayload : RoomRsvpRecord :=
      { status := assignedStatus
        createdAt := now
        phone := profile.phone
        displayName := profile.displayName
        userId := rsvpOwnerId }
    let userRsvpPayload : UserRsvpRecord :=
      { status := assignedStatus
        roomId := room.id
        startTimeMs := room.startTimeMs
        endTimeMs := room.endTimeMs
        updatedAt := now }
    (.committed assignedStatus,
      { rsvpConfig := some cfg.toStored
        roomRsvps := insertA rsvpOwnerId roomRsvpPayload st.roomRsvps
        userRsvps := insertA room.id userRsvpPayload st.userRsvps })

/-- Embedding of `handleRegisterForSelectedRoom` (part_003 lines 478-592):
guard on a resolvable session and an UPCOMING room, short-circuit on an
existing active RsvpRecord for (roomId, userId), otherwise run the ledger
transaction and, on commit, the dual-view write. -/
def handleRegisterForSelectedRoom (room : Room) (rsvpOwnerId : String)
    (profile : Profile) (now : Int) (st : RegisterState) :
    RegisterOutcome × RegisterState :=
  if rsvpOwnerId = "" then (.noSession, st)
  else if getRoomState room now ≠ RoomLifecycleState.upcoming then (.notUpcoming, st)
  else
    match lookupA rsvpOwnerId st.roomRsvps with
    | some record =>
      if isActiveRsvpStatus (some record.status) then (.already record.status, st)
      else registerCommitPhase room rsvpOwnerId profile now st
    | none => registerCommitPhase room rsvpOwnerId profile now st

/-- C3: when the stored rsvp config has rsvpOpen = false, a register call
that reaches the ledger (session resolvable, room UPCOMING, no existing
active record for the pair) aborts the transaction: the outcome is REFUSED
and the store is returned unchanged — counters untouched, no room-side or
user-side record written. -/
theorem register_refused_when_closed :
    ∀ (room : Room) (rsvpOwnerId : String) (profile : Profile) (now : Int)
      (st : RegisterState) (c : StoredRsvpConfig),
      rsvpOwnerId ≠ "" →
      getRoomState room now = RoomLifecycleState.upcoming →
      (∀ record, lookupA rsvpOwnerId st.roomRsvps = some record →
        isActiveRsvpStatus (some record.status) = false) →
      st.rsvpConfig = some c →
      c.rsvpOpen = some false →
      handleRegisterForSelectedRoom room rsvpOwnerId profile now st = (.refused, st) := by
  intro room rsvpOwnerId profile now st c howner hstate hnoactive hcfg hclosed
  have habort : rsvpTransactionBody st.rsvpConfig = none := by
    rw [hcfg]
    unfold rsvpTransactionBody mergeRsvpConfig
    simp [hclosed]
  unfold handleRegisterForSelectedRoom
  rw [if_neg howner, hstate]
  simp only [ne_eq, not_true_eq_false, if_false, ite_false]
  cases hlk : lookupA rsvpOwnerId st.roomRsvps with
  | none =>
    dsimp only
    unfold registerCommitPhase
    rw [habort]
  | some record =>
    dsimp only
    rw [hnoactive record hlk]
    simp only [Bool.false_eq_true, if_false]
    unfold registerCommitPhase
    rw [habort]

/-- Witness for C3: a closed room with one non-active (cancelled) record
refuses a new registration and leaves the store unchanged. -/
theorem register_refused_when_closed_witness :
    handleRegisterForSelectedRoom ⟨"room1", false, 1000, 2000, []⟩ "user1"
      ⟨"5550001111", "Ada"⟩ 500
      ⟨some ⟨some false, some 10, some 3, some 1, []⟩,
        [("user1", ⟨"cancelled", 1, "5550001111", "Ada", "user1"⟩)], []⟩ =
      (.refused,
        ⟨some ⟨some false, some 10, some 3, some 1, []⟩,
          [("user1", ⟨"cancelled", 1, "5550001111", "Ada", "user1"⟩)], []⟩) := by
  exact register_refused_when_closed _ "user1" _ 500 _
    ⟨some false, some 10, some 3, some 1, []⟩
    (by decide) (by decide) (by decide) rfl rfl

theorem rsvpTransactionBody_status (current : Option StoredRsvpConfig)
    (cfg : RsvpConfig) (s : String)
    (h : rsvpTransactionBody current = some (cfg, s)) :
    s = RSVP_STATUS_REGISTERED ∨ s = RSVP_STATUS_WAITLISTED := by
  unfold rsvpTransactionBody at h
  dsimp only at h
  split_ifs at h <;>
    simp only [Option.some.injEq, Prod.mk.injEq] at h <;>
      [exact Or.inr h.2.symm; exact Or.inl h.2.symm]

theorem handleRegister_cases (room : Room) (owner : String) (profile : Profile)
    (now : Int) (st : RegisterState) :
    ((handleRegisterForSelectedRoom room owner profile now st).2 = st ∧
      ∀ s, (handleRegisterForSelectedRoom room owner profile now st).1 ≠
        RegisterOutcome.committed s) ∨
    (∃ s cfg, rsvpTransactionBody st.rsvpConfig = some (cfg, s) ∧
      handleRegisterForSelectedRoom room owner profile now st =
        (RegisterOutcome.committed s,
          ⟨some cfg.toStored,
            insertA owner ⟨s, now, profile.phone, profile.displayName, owner⟩ st.roomRsvps,
            insertA room.id ⟨s, room.id, room.startTimeMs, room.endTimeMs, now⟩ st.userRsvps⟩)) := by
  unfold handleRegisterForSelectedRoom
  by_cases howner : owner = ""
  · rw [if_pos howner]
    exact Or.inl ⟨rfl, fun s h => RegisterOutcome.noConfusion h⟩
  · rw [if_neg howner]
    by_cases hstate : getRoomState room now ≠ RoomLifecycleState.upcoming
    · rw [if_pos hstate]
      exact Or.inl ⟨rfl, fun s h => RegisterOutcome.noConfusion h⟩
    · rw [if_neg hstate]
      cases hlk : lookupA owner st.roomRsvps with
      | some record =>
        dsimp only
        by_cases hact : isActiveRsvpStatus (some record.status) = true
        · rw [if_pos hact]
          exact Or.inl ⟨rfl, fun s h => RegisterOutcome.noConfusion h⟩
        · rw [if_neg hact]
          unfold registerCommitPhase
          cases htx : rsvpTransactionBody st.rsvpConfig with
          | none => exact Or.inl ⟨rfl, fun s h => RegisterOutcome.noConfusion h⟩
          | some pair =>
            obtain ⟨cfg, s⟩ := pair
            dsimp only
            exact Or.inr ⟨s, cfg, rfl, rfl⟩
      | none =>
        dsimp only
        unfold registerCommitPhase
        cases htx : rsvpTransactionBody st.rsvpConfig with
        | none => exact Or.inl ⟨rfl, fun s h => RegisterOutcome.noConfusion h⟩
        | some pair =>
          obtain ⟨cfg, s⟩ := pair
          dsimp only
          exact Or.inr ⟨s, cfg, rfl, rfl⟩

/-- C4: register is idempotent per (roomId, userId). An existing active
RsvpRecord short-circuits the call to its status with the store untouched;
consequently, after a committed register call, calling register again for
the same pair returns the same status and changes nothing. -/
theorem register_idempotent :
    (∀ (room : Room) (rsvpOwnerId : String) (profile : Profile) (now : Int)
        (st : RegisterState) (record : RoomRsvpRecord),
        rsvpOwnerId ≠ "" →
        getRoomState room now = RoomLifecycleState.upcoming →
        lookupA rsvpOwnerId st.roomRsvps = some record →
        isActiveRsvpStatus (some record.status) = true →
        handleRegisterForSelectedRoom room rsvpOwnerId profile now st =
          (.already record.status, st)) ∧
    (∀ (room : Room) (rsvpOwnerId : String) (profile profile2 : Profile)
        (now now2 : Int) (st st2 : RegisterState) (s : String),
        getRoomState room now2 = RoomLifecycleState.upcoming →
        handleRegisterForSelectedRoom room rsvpOwnerId profile now st =
          (.committed s, st2) →
        handleRegisterForSelectedRoom room rsvpOwnerId profile2 now2 st2 =
          (.already s, st2)) := by
  constructor
  · intro room owner profile now st record howner hstate hlk hact
    unfold handleRegisterForSelectedRoom
    rw [if_neg howner, if_neg (not_not_intro hstate), hlk]
    dsimp only
    rw [if_pos hact]
  · intro room owner profile profile2 now now2 st st2 s hstate2 h
    rcases handleRegister_cases room owner profile now st with ⟨_, hno⟩ | ⟨s0, cfg, htx, heq⟩
    · exact absurd (by rw [h]) (hno s)
    · have howner : owner ≠ "" := by
        intro he
        rw [handleRegisterForSelectedRoom, if_pos he] at heq
        exact RegisterOutcome.noConfusion (congrArg Prod.fst heq)
      rw [heq] at h
      rw [Prod.ext_iff] at h
      obtain ⟨h1, h2⟩ := h
      simp only [RegisterOutcome.committed.injEq] at h1
      subst h1
      subst h2
      unfold handleRegisterForSelectedRoom
      rw [if_neg howner, if_neg (not_not_intro hstate2)]
      dsimp only
      rw [lookupA_insertA_self]
      dsimp only
      rcases rsvpTransactionBody_status _ _ _ htx with hs | hs <;>
        subst hs <;> rw [if_pos (by decide)]

/-- Witness for C4: in a 2-seat room, after a committed first registration
the second call for the same pair returns the same status and leaves the
store exactly as it was. -/
theorem register_idempotent_witness :
    handleRegisterForSelectedRoom ⟨"room1", false, 1000, 2000, []⟩ "u1"
      ⟨"5550001111", "Ada"⟩ 600
      ⟨some ⟨some true, some 2, some 1, some 0, []⟩,
        [("u1", ⟨"registered", 500, "5550001111", "Ada", "u1"⟩)],
        [("room1", ⟨"registered", "room1", 1000, 2000, 500⟩)]⟩ =
      (.already "registered",
        ⟨some ⟨some true, some 2, some 1, some 0, []⟩,
          [("u1", ⟨"registered", 500, "5550001111", "Ada", "u1"⟩)],
          [("room1", ⟨"registered", "room1", 1000, 2000, 500⟩)]⟩) := by
  exact register_idempotent.2 ⟨"room1", false, 1000, 2000, []⟩ "u1"
    ⟨"5550001111", "Ada"⟩ ⟨"5550001111", "Ada"⟩ 500 600
    ⟨some ⟨some true, some 2, some 0, some 0, []⟩, [], []⟩ _ "registered"
    (by decide) (by decide)

/-- The two denormalized views agree on status for a (room, user) pair:
the room-side record and the user-side record are either both absent or
both present with the same status string. -/
def rsvpViewsAgree (roomId rsvpOwnerId : String) (st : RegisterState) : Prop :=
  (lookupA rsvpOwnerId st.roomRsvps).map RoomRsvpRecord.status =
    (lookupA roomId st.userRsvps).map UserRsvpRecord.status

/-- C5: a committed register transaction writes the room-side record and
the user-side record in the one atomic multi-key update, both carrying the
assigned status; consequently a register call preserves status agreement
of the two views for the (room, user) pair. -/
theorem dual_view_status_agreement :
    ∀ (room : Room) (rsvpOwnerId : String) (profile : Profile) (now : Int)
      (st : RegisterState) (out : RegisterOutcome) (st2 : RegisterState),
      handleRegisterForSelectedRoom room rsvpOwnerId profile now st = (out, st2) →
      (rsvpViewsAgree room.id rsvpOwnerId st →
        rsvpViewsAgree room.id rsvpOwnerId st2) ∧
      (∀ s, out = RegisterOutcome.committed s →
        lookupA rsvpOwnerId st2.roomRsvps =
          some ⟨s, now, profile.phone, profile.displayName, rsvpOwnerId⟩ ∧
        lookupA room.id st2.userRsvps =
          some ⟨s, room.id, room.startTimeMs, room.endTimeMs, now⟩) := by
  intro room owner profile now st out st2 h
  rcases handleRegister_cases room owner profile now st with ⟨hsnd, hno⟩ | ⟨s0, cfg, htx, heq⟩
  · have hst2 : st2 = st := (congrArg Prod.snd h).symm.trans hsnd
    subst hst2
    refine ⟨fun ha => ha, fun s hs => ?_⟩
    exact absurd (by rw [h, hs]) (hno s)
  · rw [heq] at h
    simp only [Prod.mk.injEq] at h
    obtain ⟨h1, h2⟩ := h
    subst h2
    subst h1
    refine ⟨fun _ => ?_, fun s hs => ?_⟩
    · unfold rsvpViewsAgree
      dsimp only
      rw [lookupA_insertA_self, lookupA_insertA_self]
      rfl
    · simp only [RegisterOutcome.committed.injEq] at hs
      subst hs
      dsimp only
      rw [lookupA_insertA_self, lookupA_insertA_self]
      exact ⟨rfl, rfl⟩

/-- Witness for C5: a committed registration in an empty store yields
agreeing room-side and user-side records with status `registered`. -/
theorem dual_view_status_agreement_witness :
    rsvpViewsAgree "room1" "u1"
      ⟨some ⟨some true, some 2, some 1, some 0, []⟩,
        [("u1", ⟨"registered", 500, "5550001111", "Ada", "u1"⟩)],
        [("room1", ⟨"registered", "room1", 1000, 2000, 500⟩)]⟩ ∧
    lookupA "u1"
        [("u1", (⟨"registered", 500, "5550001111", "Ada", "u1"⟩ : RoomRsvpRecord))] =
      some ⟨"registered", 500, "5550001111", "Ada", "u1"⟩ := by
  have h := dual_view_status_agreement ⟨"room1", false, 1000, 2000, []⟩ "u1"
    ⟨"5550001111", "Ada"⟩ 500
    ⟨some ⟨some true, some 2, some 0, some 0, []⟩, [], []⟩
    (.committed "registered")
    ⟨some ⟨some true, some 2, some 1, some 0, []⟩,
      [("u1", ⟨"registered", 500, "5550001111", "Ada", "u1"⟩)],
      [("room1", ⟨"registered", "room1", 1000, 2000, 500⟩)]⟩
    (by decide)
  exact ⟨h.1 (by unfold rsvpViewsAgree; decide), (h.2 "registered" rfl).1⟩

/-- C10: an existing RsvpRecord whose status is not active (for instance
CANCELLED, compared case-insensitively) does not short-circuit register:
the ledger transaction runs again — incrementing bookedCount or
waitlistCount once more — and the record for the pair is overwritten with
the newly assigned active status. -/
theorem register_reruns_after_cancel :
    ∀ (room : Room) (rsvpOwnerId : String) (profile : Profile) (now : Int)
      (st : RegisterState) (record : RoomRsvpRecord),
      rsvpOwnerId ≠ "" →
      getRoomState room now = RoomLifecycleState.upcoming →
      lookupA rsvpOwnerId st.roomRsvps = some record →
      isActiveRsvpStatus (some record.status) = false →
      (mergeRsvpConfig st.rsvpConfig).rsvpOpen = true →
      ∃ s st2,
        handleRegisterForSelectedRoom room rsvpOwnerId profile now st =
          (.committed s, st2) ∧
        isActiveRsvpStatus (some s) = true ∧
        lookupA rsvpOwnerId st2.roomRsvps =
          some ⟨s, now, profile.phone, profile.displayName, rsvpOwnerId⟩ ∧
        ((s = RSVP_STATUS_REGISTERED ∧
            st2.rsvpConfig = some ({ mergeRsvpConfig st.rsvpConfig with
              bookedCount := (mergeRsvpConfig st.rsvpConfig).bookedCount + 1 }).toStored) ∨
          (s = RSVP_STATUS_WAITLISTED ∧
            st2.rsvpConfig = some ({ mergeRsvpConfig st.rsvpConfig with
              waitlistCount := (mergeRsvpConfig st.rsvpConfig).waitlistCount + 1 }).toStored)) := by
  intro room owner profile now st record howner hstate hlk hact hopen
  have hhandle : ∀ res : RegisterOutcome × RegisterState,
      registerCommitPhase room owner profile now st = res →
      handleRegisterForSelectedRoom room owner profile now st = res := by
    intro res hres
    unfold handleRegisterForSelectedRoom
    rw [if_neg howner, if_neg (not_not_intro hstate), hlk]
    dsimp only
    rw [hact]
    simp only [Bool.false_eq_true, if_false]
    exact hres
  by_cases hfull : (mergeRsvpConfig st.rsvpConfig).capacity > 0 ∧
      (mergeRsvpConfig st.rsvpConfig).bookedCount ≥ (mergeRsvpConfig st.rsvpConfig).capacity
  · have htx : rsvpTransactionBody st.rsvpConfig =
        some ({ mergeRsvpConfig st.rsvpConfig with
            waitlistCount := (mergeRsvpConfig st.rsvpConfig).waitlistCount + 1 },
          RSVP_STATUS_WAITLISTED) := by
      unfold rsvpTransactionBody
      dsimp only
      rw [if_neg (by rw [hopen]; simp), if_pos hfull]
    refine ⟨RSVP_STATUS_WAITLISTED,
      ⟨some ({ mergeRsvpConfig st.rsvpConfig with
          waitlistCount := (mergeRsvpConfig st.rsvpConfig).waitlistCount + 1 }).toStored,
        insertA owner ⟨RSVP_STATUS_WAITLISTED, now, profile.phone,
          profile.displayName, owner⟩ st.roomRsvps,
        insertA room.id ⟨RSVP_STATUS_WAITLISTED, room.id, room.startTimeMs,
          room.endTimeMs, now⟩ st.userRsvps⟩,
      hhandle _ ?_, by decide,
      lookupA_insertA_self _ _ _, Or.inr ⟨rfl, rfl⟩⟩
    unfold registerCommitPhase
    rw [htx]
  · have htx : rsvpTransactionBody st.rsvpConfig =
        some ({ mergeRsvpConfig st.rsvpConfig with
            bookedCount := (mergeRsvpConfig st.rsvpConfig).bookedCount + 1 },
          RSVP_STATUS_REGISTERED) := by
      unfold rsvpTransactionBody
      dsimp only
      rw [if_neg (by rw [hopen]; simp), if_neg hfull]
    refine ⟨RSVP_STATUS_REGISTERED,
      ⟨some ({ mergeRsvpConfig st.rsvpConfig with
          bookedCount := (mergeRsvpConfig st.rsvpConfig).bookedCount + 1 }).toStored,
        insertA owner ⟨RSVP_STATUS_REGISTERED, now, profile.phone,
          profile.displayName, owner⟩ st.roomRsvps,
        insertA room.id ⟨RSVP_STATUS_REGISTERED, room.id, room.startTimeMs,
          room.endTimeMs, now⟩ st.userRsvps⟩,
      hhandle _ ?_, by decide,
      lookupA_insertA_self _ _ _, Or.inl ⟨rfl, rfl⟩⟩
    unfold registerCommitPhase
    rw [htx]

/-- Witness for C10: an existing record with status `CANCELLED` (upper
case) is not short-circuited; the transaction runs and assigns a fresh
status. -/
theorem register_reruns_after_cancel_witness :
    ∃ s st2,
      handleRegisterForSelectedRoom ⟨"room1", false, 1000, 2000, []⟩ "u1"
        ⟨"5550001111", "Ada"⟩ 500
        ⟨some ⟨some true, some 2, some 1, some 0, []⟩,
          [("u1", ⟨"CANCELLED", 100, "5550001111", "Ada", "u1"⟩)], []⟩ =
        (.committed s, st2) ∧
      isActiveRsvpStatus (some s) = true ∧
      lookupA "u1" st2.roomRsvps = some ⟨s, 500, "5550001111", "Ada", "u1"⟩ ∧
      ((s = RSVP_STATUS_REGISTERED ∧
          st2.rsvpConfig = some ({ mergeRsvpConfig (some ⟨some true, some 2, some 1, some 0, []⟩) with
            bookedCount := (mergeRsvpConfig (some ⟨some true, some 2, some 1, some 0, []⟩)).bookedCount + 1 }).toStored) ∨
        (s = RSVP_STATUS_WAITLISTED ∧
          st2.rsvpConfig = some ({ mergeRsvpConfig (some ⟨some true, some 2, some 1, some 0, []⟩) with
            waitlistCount := (mergeRsvpConfig (some ⟨some true, some 2, some 1, some 0, []⟩)).waitlistCount + 1 }).toStored)) :=
  register_reruns_after_cancel ⟨"room1", false, 1000, 2000, []⟩ "u1"
    ⟨"5550001111", "Ada"⟩ 500
    ⟨some ⟨some true, some 2, some 1, some 0, []⟩,
      [("u1", ⟨"CANCELLED", 100, "5550001111", "Ada", "u1"⟩)], []⟩
    ⟨"CANCELLED", 100, "5550001111", "Ada", "u1"⟩
    (by decide) (by decide) (by decide) (by decide) (by decide)

/-- Embedding of the `yourShows` filter (part_003 lines 358-384): rooms
where the caller appears in the room's `audience_index` or has an active
rsvp status in the user-side record set, guarded by
`if (!profileUserId && !rsvpOwnerId) return []`. The source then sorts the
filtered list in place, which does not change membership; the claims here
are membership claims. -/
def yourShows (profileUserId rsvpOwnerId : String)
    (userRsvps : List (String × UserRsvpRecord)) (rooms : List Room) : List Room :=
  if profileUserId = "" ∧ rsvpOwnerId = "" then []
  else
    rooms.filter fun room =>
      room.audienceIndex.contains profileUserId ||
        isActiveRsvpStatus ((lookupA room.id userRsvps).map UserRsvpRecord.status)

/-- Embedding of `upcomingShows` (part_003 lines 388-391): rooms whose
resolved state is `upcoming` minus the ids already in `yourShows`. -/
def upcomingShows (profileUserId rsvpOwnerId : String)
    (userRsvps : List (String × UserRsvpRecord)) (rooms : List Room)
    (nowMs : Int) : List Room :=
  let yourSet := (yourShows profileUserId rsvpOwnerId userRsvps rooms).map Room.id
  rooms.filter fun r =>
    decide (getRoomState r nowMs = RoomLifecycleState.upcoming) && !(yourSet.contains r.id)

/-- Embedding of `currentShows` (part_003 lines 393-396): rooms whose
resolved state is `current` minus the ids already in `yourShows`. -/
def currentShows (profileUserId rsvpOwnerId : String)
    (userRsvps : List (String × UserRsvpRecord)) (rooms : List Room)
    (nowMs : Int) : List Room :=
  let yourSet := (yourShows profileUserId rsvpOwnerId userRsvps rooms).map Room.id
  rooms.filter fun r =>
    decide (getRoomState r nowMs = RoomLifecycleState.current) && !(yourSet.contains r.id)

theorem mem_yourShows (profileUserId rsvpOwnerId : String)
    (userRsvps : List (String × UserRsvpRecord)) (rooms : List Room) (r : Room) :
    r ∈ yourShows profileUserId rsvpOwnerId userRsvps rooms ↔
      (r ∈ rooms ∧ ¬(profileUserId = "" ∧ rsvpOwnerId = "") ∧
        (r.audienceIndex.contains profileUserId = true ∨
          isActiveRsvpStatus ((lookupA r.id userRsvps).map UserRsvpRecord.status) = true)) := by
  by_cases hg : profileUserId = "" ∧ rsvpOwnerId = ""
  · simp [yourShows, hg]
  · simp [yourShows, hg, List.mem_filter, Bool.or_eq_true]

theorem mem_upcomingShows (profileUserId rsvpOwnerId : String)
    (userRsvps : List (String × UserRsvpRecord)) (rooms : List Room)
    (nowMs : Int) (r : Room) :
    r ∈ upcomingShows profileUserId rsvpOwnerId userRsvps rooms nowMs ↔
      (r ∈ rooms ∧ getRoomState r nowMs = RoomLifecycleState.upcoming ∧
        ((yourShows profileUserId rsvpOwnerId userRsvps rooms).map Room.id).contains r.id
          = false) := by
  simp [upcomingShows, List.mem_filter, Bool.and_eq_true, decide_eq_true_eq,
    Bool.not_eq_true', and_assoc]

theorem mem_currentShows (profileUserId rsvpOwnerId : String)
    (userRsvps : List (String × UserRsvpRecord)) (rooms : List Room)
    (nowMs : Int) (r : Room) :
    r ∈ currentShows profileUserId rsvpOwnerId userRsvps rooms nowMs ↔
      (r ∈ rooms ∧ getRoomState r nowMs = RoomLifecycleState.current ∧
        ((yourShows profileUserId rsvpOwnerId userRsvps rooms).map Room.id).contains r.id
          = false) := by
  simp [currentShows, List.mem_filter, Bool.and_eq_true, decide_eq_true_eq,
    Bool.not_eq_true', and_assoc]

theorem yourShows_id_contains (profileUserId rsvpOwnerId : String)
    (userRsvps : List (String × UserRsvpRecord)) (rooms : List Room) (r : Room)
    (h : r ∈ yourShows profileUserId rsvpOwnerId userRsvps rooms) :
    ((yourShows profileUserId rsvpOwnerId userRsvps rooms).map Room.id).contains r.id
      = true := by
  have hm : r.id ∈ (yourShows profileUserId rsvpOwnerId userRsvps rooms).map Room.id :=
    List.mem_map_of_mem Room.id h
  simpa using hm

/-- C7 counterexample: an ENDED room for which the caller holds an active
registration is placed in the "yours" bucket, so ENDED rooms are not
excluded from all three buckets. -/
theorem catalog_ended_room_in_yours :
    getRoomState ⟨"r1", false, 1000, 2000, []⟩ 5000 = RoomLifecycleState.ended ∧
    (⟨"r1", false, 1000, 2000, []⟩ : Room) ∈
      yourShows "u1" "u1" [("r1", ⟨"registered", "r1", 1000, 2000, 0⟩)]
        [⟨"r1", false, 1000, 2000, []⟩] := by
  decide

/-- C7 (amended): the three buckets are pairwise disjoint; a room with an
active registration or an audience-index entry for the caller appears only
in "yours"; an UPCOMING room with neither appears only in "upcoming" and a
CURRENT room with neither only in "current"; ENDED rooms are excluded from
"upcoming" and "current", but an ENDED room with an active registration or
audience-index entry still appears in "yours". -/
theorem catalog_buckets_disjoint :
    ∀ (profileUserId rsvpOwnerId : String)
      (userRsvps : List (String × UserRsvpRecord)) (rooms : List Room) (nowMs : Int),
      (∀ r : Room, ¬(r ∈ yourShows profileUserId rsvpOwnerId userRsvps rooms ∧
        r ∈ upcomingShows profileUserId rsvpOwnerId userRsvps rooms nowMs)) ∧
      (∀ r : Room, ¬(r ∈ yourShows profileUserId rsvpOwnerId userRsvps rooms ∧
        r ∈ currentShows profileUserId rsvpOwnerId userRsvps rooms nowMs)) ∧
      (∀ r : Room, ¬(r ∈ upcomingShows profileUserId rsvpOwnerId userRsvps rooms nowMs ∧
        r ∈ currentShows profileUserId rsvpOwnerId userRsvps rooms nowMs)) ∧
      (∀ r : Room, getRoomState r nowMs = RoomLifecycleState.ended →
        r ∉ upcomingShows profileUserId rsvpOwnerId userRsvps rooms nowMs ∧
        r ∉ currentShows profileUserId rsvpOwnerId userRsvps rooms nowMs) ∧
      (∀ r : Room, r ∈ yourShows profileUserId rsvpOwnerId userRsvps rooms ↔
        (r ∈ rooms ∧ ¬(profileUserId = "" ∧ rsvpOwnerId = "") ∧
          (r.audienceIndex.contains profileUserId = true ∨
            isActiveRsvpStatus ((lookupA r.id userRsvps).map UserRsvpRecord.status) = true))) ∧
      (∀ r : Room, r ∈ upcomingShows profileUserId rsvpOwnerId userRsvps rooms nowMs ↔
        (r ∈ rooms ∧ getRoomState r nowMs = RoomLifecycleState.upcoming ∧
          ((yourShows profileUserId rsvpOwnerId userRsvps rooms).map Room.id).contains r.id
            = false)) ∧
      (∀ r : Room, r ∈ currentShows profileUserId rsvpOwnerId userRsvps rooms nowMs ↔
        (r ∈ rooms ∧ getRoomState r nowMs = RoomLifecycleState.current ∧
          ((yourShows profileUserId rsvpOwnerId userRsvps rooms).map Room.id).contains r.id
            = false)) := by
  intro pid oid userRsvps rooms nowMs
  refine ⟨?_, ?_, ?_, ?_,
    mem_yourShows pid oid userRsvps rooms,
    mem_upcomingShows pid oid userRsvps rooms nowMs,
    mem_currentShows pid oid userRsvps rooms nowMs⟩
  · rintro r ⟨hy, hu⟩
    rw [mem_upcomingShows] at hu
    rw [yourShows_id_contains pid oid userRsvps rooms r hy] at hu
    exact Bool.noConfusion hu.2.2
  · rintro r ⟨hy, hc⟩
    rw [mem_currentShows] at hc
    rw [yourShows_id_contains pid oid userRsvps rooms r hy] at hc
    exact Bool.noConfusion hc.2.2
  · rintro r ⟨hu, hc⟩
    rw [mem_upcomingShows] at hu
    rw [mem_currentShows] at hc
    rw [hu.2.1] at hc
    exact RoomLifecycleState.noConfusion hc.2.1
  · intro r hended
    constructor
    · intro hu
      rw [mem_upcomingShows] at hu
      rw [hended] at hu
      exact RoomLifecycleState.noConfusion hu.2.1
    · intro hc
      rw [mem_currentShows] at hc
      rw [hended] at hc
      exact RoomLifecycleState.noConfusion hc.2.1

/-- Witness for C7 (amended): an ENDED room is absent from "upcoming" and
"current" at a concrete input. -/
theorem catalog_buckets_disjoint_witness :
    (⟨"r1", false, 1000, 2000, []⟩ : Room) ∉
      upcomingShows "u1" "u1" [("r1", ⟨"registered", "r1", 1000, 2000, 0⟩)]
        [⟨"r1", false, 1000, 2000, []⟩] 5000 ∧
    (⟨"r1", false, 1000, 2000, []⟩ : Room) ∉
      currentShows "u1" "u1" [("r1", ⟨"registered", "r1", 1000, 2000, 0⟩)]
        [⟨"r1", false, 1000, 2000, []⟩] 5000 :=
  (catalog_buckets_disjoint "u1" "u1"
      [("r1", ⟨"registered", "r1", 1000, 2000, 0⟩)]
      [⟨"r1", false, 1000, 2000, []⟩] 5000).2.2.2.1
    ⟨"r1", false, 1000, 2000, []⟩ (by decide)

/-- An event window document (`event_config`), already parsed to ms. -/
structure EventConfig where
  startTimeMs : Int
  endTimeMs : Int
deriving DecidableEq, Repr

/-- The raw room snapshot fetched by the locked-gate recheck
(`get(ref(db, rooms/<roomId>))`): its `isLive` flag and an optional
`event_config`; `none` models a missing snapshot (`!snap.exists()`). -/
structure RoomSnapshot where
  isLive : Bool
  eventConfig : Option EventConfig
deriving DecidableEq, Repr

/-- Outcome of the locked-gate timer expiry: return to waiting with an
error surfaced ("Room is still locked"), or proceed to the join flow. -/
inductive GateOutcome
  | stillLocked
  | unlocked
deriving DecidableEq, Repr

/-- The room rebuilt from the authoritative snapshot inside
`handleLockedTimerFinished` (part_003 lines 631-637):
`isLive: !!latest?.isLive` and
`eventConfig: latest?.event_config || selectedLockedRoom.eventConfig || {}`.
The audience index is not consulted by the lifecycle resolver. -/
def lockedRecheckRoom (roomId : String) (snapshot : Option RoomSnapshot)
    (selectedEventConfig : Option EventConfig) : Room :=
  let isLive := (snapshot.map RoomSnapshot.isLive).getD false
  let cfg := ((snapshot.bind RoomSnapshot.eventConfig).orElse
    (fun _ => selectedEventConfig)).getD ⟨0, 0⟩
  ⟨roomId, isLive, cfg.startTimeMs, cfg.endTimeMs, []⟩

/-- Embedding of `handleLockedTimerFinished` (part_003 lines 624-652):
re-fetch the room, re-run the lifecycle resolver on the authoritative
data, return to waiting when still `upcoming`, otherwise invoke the join
flow (`handleJoinRoom`). -/
def handleLockedTimerFinished (roomId : String) (snapshot : Option RoomSnapshot)
    (selectedEventConfig : Option EventConfig) (now : Int) : GateOutcome :=
  if getRoomState (lockedRecheckRoom roomId snapshot selectedEventConfig) now =
      RoomLifecycleState.upcoming
  then .stillLocked
  else .unlocked

/-- C8 counterexample: when the authoritative recheck resolves to ENDED
(not CURRENT), the gate still proceeds to the join flow, so it does not
admit only on a CURRENT recheck. -/
theorem locked_gate_admits_ended :
    getRoomState (lockedRecheckRoom "r1" (some ⟨false, some ⟨1000, 2000⟩⟩) none) 5000 =
      RoomLifecycleState.ended ∧
    handleLockedTimerFinished "r1" (some ⟨false, some ⟨1000, 2000⟩⟩) none 5000 =
      GateOutcome.unlocked := by
  decide

/-- C8 (amended): on countdown expiry the gate decides from the re-fetched
authoritative state alone: if the recheck still resolves to UPCOMING it
surfaces an error and does not invoke the join flow, and it invokes the
join flow exactly when the recheck state is not UPCOMING (CURRENT or
ENDED) — never on the local countdown alone. -/
theorem locked_gate_recheck :
    ∀ (roomId : String) (snapshot : Option RoomSnapshot)
      (selectedEventConfig : Option EventConfig) (now : Int),
      (getRoomState (lockedRecheckRoom roomId snapshot selectedEventConfig) now =
          RoomLifecycleState.upcoming →
        handleLockedTimerFinished roomId snapshot selectedEventConfig now =
          GateOutcome.stillLocked) ∧
      (handleLockedTimerFinished roomId snapshot selectedEventConfig now =
          GateOutcome.unlocked ↔
        getRoomState (lockedRecheckRoom roomId snapshot selectedEventConfig) now ≠
          RoomLifecycleState.upcoming) := by
  intro roomId snapshot selectedEventConfig now
  unfold handleLockedTimerFinished
  by_cases h : getRoomState (lockedRecheckRoom roomId snapshot selectedEventConfig) now =
      RoomLifecycleState.upcoming
  · rw [if_pos h]
    exact ⟨fun _ => rfl, by simp [h]⟩
  · rw [if_neg h]
    exact ⟨fun hu => absurd hu h, by simp [h]⟩

/-- Witness for C8 (amended): a recheck that still resolves UPCOMING keeps
the gate locked. -/
theorem locked_gate_recheck_witness :
    handleLockedTimerFinished "r1" (some ⟨false, some ⟨1000, 2000⟩⟩) none 500 =
      GateOutcome.stillLocked :=
  (locked_gate_recheck "r1" (some ⟨false, some ⟨1000, 2000⟩⟩) none 500).1 (by decide)

/-- An `audience_index` entry (part_003 lines 432-441). -/
structure AudienceIndexEntry where
  userId : String
  username : String
  email : String
  phone : String
  role : String
  firstSeen : Int
  lastSeen : Int
  lastSessionKey : String
deriving DecidableEq, Repr

/-- Embedding of the audience-index upsert inside `handleJoinRoom`
(part_003 lines 428-441): read the existing entry; keep its `firstSeen`
when present, otherwise use the current time; always overwrite `lastSeen`
with the current time and `lastSessionKey` with the new session key. -/
def audienceIndexUpsert (existing : Option AudienceIndexEntry)
    (userId username email phone role : String) (now : Int)
    (sessionKey : String) : AudienceIndexEntry :=
  { userId := userId
    username := username
    email := email
    phone := phone
    role := role
    firstSeen := match existing with
      | some entry => entry.firstSeen
      | none => now
    lastSeen := now
    lastSessionKey := sessionKey }

/-- C9: the join upsert preserves an existing entry's `firstSeen` and
overwrites `lastSeen`/`lastSessionKey` with the call's timestamp and
session key; with no existing entry, `firstSeen` is the current time.
Hence two successive joins keep the first call's `firstSeen` and set
`lastSeen` to the second call's timestamp. -/
theorem audience_first_seen_preserved :
    (∀ (existing : Option AudienceIndexEntry)
        (userId username email phone role : String) (now : Int) (sessionKey : String),
      (∀ entry, existing = some entry →
        (audienceIndexUpsert existing userId username email phone role now
          sessionKey).firstSeen = entry.firstSeen) ∧
      (existing = none →
        (audienceIndexUpsert existing userId username email phone role now
          sessionKey).firstSeen = now) ∧
      (audienceIndexUpsert existing userId username email phone role now
        sessionKey).lastSeen = now ∧
      (audienceIndexUpsert existing userId username email phone role now
        sessionKey).lastSessionKey = sessionKey) ∧
    (∀ (userId username email phone role : String) (now1 now2 : Int)
        (key1 key2 : String),
      (audienceIndexUpsert
        (some (audienceIndexUpsert none userId username email phone role now1 key1))
        userId username email phone role now2 key2).firstSeen = now1 ∧
      (audienceIndexUpsert
        (some (audienceIndexUpsert none userId username email phone role now1 key1))
        userId username email phone role now2 key2).lastSeen = now2) := by
  constructor
  · intro existing userId username email phone role now sessionKey
    refine ⟨?_, ?_, rfl, rfl⟩
    · intro entry hent
      subst hent
      rfl
    · intro hnone
      subst hnone
      rfl
  · intro userId username email phone role now1 now2 key1 key2
    exact ⟨rfl, rfl⟩

/-- Witness for C9: two concrete joins preserve the first timestamp and
take the second. -/
theorem audience_first_seen_preserved_witness :
    (audienceIndexUpsert (some ⟨"u1", "Ada", "e", "p", "audience", 100, 100, "k1"⟩)
      "u1" "Ada" "e" "p" "audience" 200 "k2").firstSeen = 100 ∧
    (audienceIndexUpsert (some ⟨"u1", "Ada", "e", "p", "audience", 100, 100, "k1"⟩)
      "u1" "Ada" "e" "p" "audience" 200 "k2").lastSeen = 200 := by
  have h := (audience_first_seen_preserved.1
    (some ⟨"u1", "Ada", "e", "p", "audience", 100, 100, "k1"⟩)
    "u1" "Ada" "e" "p" "audience" 200 "k2")
  exact ⟨h.1 ⟨"u1", "Ada", "e", "p", "audience", 100, 100, "k1"⟩ rfl, h.2.2.1⟩
